import Mathlib

/-!
# Driver tab navigator

A shallow embedding of `src/navigation/DriverTabNavigator.jsx`:

* `DriverTabIcon`       one tab icon: glyph resolution, opacity, colour, spring effect;
* `CustomDriverTabBar`  the floating bar: safe-area offset, one icon per route, press handler;
* `DriverTabNavigator`  the four registered screens.

JavaScript numbers that hold lengths and animation values are rationals, `state.index` is an
integer, strings are `String`, `undefined` is `none`, and a thrown `TypeError` is `Except.error`.
Calls made on the navigation handle are recorded by interpreting the handler, which is a small
script of `emit` and `navigate` commands, against an arbitrary stateful handle.
-/

namespace DriverTabNavigator

/-! ## JavaScript helpers -/

/-- JavaScript `String.prototype.includes`: `search` occurs somewhere inside `s`. -/
def includes (s search : String) : Bool :=
  s.data.tails.any (fun t => search.data.isPrefixOf t)

/-- Names every object literal inherits from `Object.prototype` (ECMA-262, section 20.1.3 and
its legacy accessors).  A bracket read `obj[name]` with one of these names finds the inherited
member, a function or object and therefore truthy, when `obj` has no own property `name`. -/
def objectPrototypeNames : List String :=
  ["constructor", "hasOwnProperty", "isPrototypeOf", "propertyIsEnumerable",
   "toLocaleString", "toString", "valueOf", "__proto__",
   "__defineGetter__", "__defineSetter__", "__lookupGetter__", "__lookupSetter__"]

/-! ## The navigation handle -/

/-- A route of the navigation state. -/
structure Route where
  key : String
  name : String
deriving DecidableEq, Repr

/-- The navigation state `{ index, routes }` the navigator passes to its tab bar. -/
structure NavigationState where
  index : ℤ
  routes : List Route
deriving DecidableEq, Repr

/-- The argument of `navigation.emit`. -/
structure EventSpec where
  type : String
  target : String
  canPreventDefault : Bool
deriving DecidableEq, Repr

/-- The object `navigation.emit` returns. -/
structure Event where
  defaultPrevented : Bool
deriving DecidableEq, Repr

/-- The navigation handle: `emit` runs the listeners, which may change the world `σ`, and
returns the event; `navigate` changes the world. -/
structure Navigation (σ : Type) where
  emit : EventSpec → σ → Event × σ
  navigate : String → σ → σ

/-- A call on the navigation handle. -/
inductive Call where
  | emit (spec : EventSpec)
  | navigate (name : String)
deriving DecidableEq, Repr

/-- The body of an event handler: a sequence of calls on the navigation handle, each `emit`
continuing with the event it returned. -/
inductive Handler where
  | done
  | emit (spec : EventSpec) (next : Event → Handler)
  | navigate (name : String) (next : Handler)

/-- Runs a handler against a handle from world `w`: the calls made, in order, and the world
afterwards. -/
def Handler.run {σ : Type} (navigation : Navigation σ) : Handler → σ → List Call × σ
  | Handler.done, w => ([], w)
  | Handler.emit spec next, w =>
    let result := navigation.emit spec w
    let rest := Handler.run navigation (next result.1) result.2
    (Call.emit spec :: rest.1, rest.2)
  | Handler.navigate name next, w =>
    let rest := Handler.run navigation next (navigation.navigate name w)
    (Call.navigate name :: rest.1, rest.2)

/-- The names `navigate` was called with, in order. -/
def navigateCalls : List Call → List String
  | [] => []
  | Call.navigate name :: calls => name :: navigateCalls calls
  | Call.emit _ :: calls => navigateCalls calls

/-- The arguments `emit` was called with, in order. -/
def emitCalls : List Call → List EventSpec
  | [] => []
  | Call.emit spec :: calls => spec :: emitCalls calls
  | Call.navigate _ :: calls => emitCalls calls

/-! ## DriverTabIcon (lines 18-88) -/

/-- An entry `{ active, inactive }`; a field that is absent reads as `undefined` (`none`). -/
structure IconConfig where
  active : Option String
  inactive : Option String
deriving DecidableEq, Repr

/-- The own properties of the object literal `iconMap` (lines 31-48), in source order. -/
def iconMap : List (String × IconConfig) :=
  [("two-wheeler", ⟨some "two-wheeler", some "two-wheeler"⟩),
   ("account-balance-wallet", ⟨some "account-balance-wallet", some "account-balance-wallet"⟩),
   ("history", ⟨some "history", some "history"⟩),
   ("person", ⟨some "person", some "person-outline"⟩)]

/-- What the read `iconMap[iconName]` yields. -/
inductive PropertyRead where
  | own (config : IconConfig)
  | inherited
  | undefined
deriving DecidableEq, Repr

/-- The read `iconMap[iconName]`: an own property first, then the prototype chain. -/
def iconMapRead (iconName : String) : PropertyRead :=
  match iconMap.lookup iconName with
  | some config => PropertyRead.own config
  | none =>
    if iconName ∈ objectPrototypeNames then PropertyRead.inherited else PropertyRead.undefined

/-- Lines 50-53: `iconMap[iconName] || { active: iconName, inactive: ... }`.  An inherited
member is truthy, so the fallback object is not built, and it has neither an `active` nor an
`inactive` property. -/
def iconConfig (iconName : String) : IconConfig :=
  match iconMapRead iconName with
  | PropertyRead.own config => config
  | PropertyRead.inherited => ⟨none, none⟩
  | PropertyRead.undefined =>
    ⟨some iconName,
     some (if includes iconName "-outline" then iconName else iconName ++ "-outline")⟩

/-- Line 55: `isFocused ? iconConfig.active : iconConfig.inactive`. -/
def finalIconName (iconName : String) (isFocused : Bool) : Option String :=
  if isFocused then (iconConfig iconName).active else (iconConfig iconName).inactive

/-- Line 56: `isFocused ? 1 : 0.6`. -/
def iconOpacity (isFocused : Bool) : ℚ :=
  if isFocused then 1 else 0.6

/-- The options handed to `Animated.spring` (lines 22-27). -/
structure SpringConfig where
  toValue : ℚ
  tension : ℚ
  friction : ℚ
  useNativeDriver : Bool
deriving DecidableEq, Repr

/-- Line 19: the value `scaleAnim` is created with. -/
def scaleAnimInitial (isFocused : Bool) : ℚ :=
  if isFocused then 1.1 else 1

/-- The body of the effect (lines 22-27): the spring that is started. -/
def springEffect (isFocused : Bool) : SpringConfig :=
  { toValue := if isFocused then 1.2 else 1
    tension := 300
    friction := 10
    useNativeDriver := true }

/-- The `useEffect` of lines 21-28 over the successive renders of one mounted icon, given the
`isFocused` prop of each render.  `previous` is the dependency value of the render before
(`none` before the mount); `scaleAnim` is the same ref on every render, so the effect runs
exactly when `isFocused` differs from `previous`.  The result lists, render by render, the
spring that was started, if any. -/
def effectRuns : Option Bool → List Bool → List (Option SpringConfig)
  | _, [] => []
  | previous, isFocused :: later =>
    (if previous = some isFocused then none else some (springEffect isFocused))
      :: effectRuns (some isFocused) later

/-- The `<Icon>` element of lines 80-84. -/
structure IconElement where
  name : Option String
  size : ℕ
  color : String
deriving DecidableEq, Repr

/-- What `DriverTabIcon` returns: the `TouchableOpacity` with its press handler (lines 59-69),
the `Animated.View` style that matters (lines 70-78) and the icon inside it. -/
structure TabIconView where
  onPress : Handler
  activeOpacity : ℚ
  opacity : ℚ
  width : ℕ
  height : ℕ
  icon : IconElement

/-- The render of `DriverTabIcon` (lines 58-87). -/
def DriverTabIcon (iconName : String) (isFocused : Bool) (onPress : Handler) : TabIconView :=
  { onPress := onPress
    activeOpacity := 0.7
    opacity := iconOpacity isFocused
    width := 44
    height := 44
    icon :=
      { name := finalIconName iconName isFocused
        size := 28
        color := if isFocused then "#FFFFFF" else "#9CA3AF" } }

/-! ## CustomDriverTabBar (lines 91-191) -/

/-- The safe-area insets. -/
structure EdgeInsets where
  top : ℚ
  bottom : ℚ
  left : ℚ
  right : ℚ
deriving DecidableEq, Repr

/-- Line 92: `Math.max(insets.bottom, Platform.OS === 'android' ? 12 : 6)`. -/
def bottomSafe (platformOS : String) (insets : EdgeInsets) : ℚ :=
  max insets.bottom (if platformOS = "android" then 12 else 6)

/-- Line 93: `Platform.OS === 'ios' ? 64 : 56`. -/
def baseHeight (platformOS : String) : ℚ :=
  if platformOS = "ios" then 64 else 56

/-- Line 94. -/
def bottomOffset : ℚ := 16

/-- Lines 158-168: the `onPress` closure of one tab. -/
def onPress (route : Route) (isFocused : Bool) : Handler :=
  Handler.emit { type := "tabPress", target := route.key, canPreventDefault := true }
    (fun event =>
      if !isFocused && !event.defaultPrevented then
        Handler.navigate route.name Handler.done
      else
        Handler.done)

/-- Lines 170-177: the icon name chosen for a route name. -/
def iconNameFor (routeName : String) : String :=
  if routeName = "Earnings" then "account-balance-wallet"
  else if routeName = "DriverHistory" then "history"
  else if routeName = "DriverProfile" then "person"
  else "two-wheeler"

/-- The per-route options of a descriptor. -/
structure TabOptions where
  tabBarLabel : Option String
deriving DecidableEq, Repr

/-- A value of the `descriptors` object. -/
structure Descriptor where
  options : TabOptions
deriving DecidableEq, Repr

/-- The props of one `<DriverTabIcon>` element (lines 180-185). -/
structure TabIconProps where
  key : String
  iconName : String
  isFocused : Bool
  onPress : Handler

/-- Line 156: `state.index === index`. -/
def isFocusedAt (state : NavigationState) (index : ℕ) : Bool :=
  decide (state.index = (index : ℤ))

/-- The callback of `state.routes.map` (lines 154-187) for one route.  `descriptors key` is the
read `descriptors[key]`; destructuring `undefined` at line 155 throws. -/
def renderRoute (state : NavigationState) (descriptors : String → Option Descriptor)
    (route : Route) (index : ℕ) : Except String TabIconProps :=
  match descriptors route.key with
  | none => Except.error "TypeError: Cannot destructure property options of undefined"
  | some _ =>
    let isFocused := isFocusedAt state index
    Except.ok
      { key := route.key
        iconName := iconNameFor route.name
        isFocused := isFocused
        onPress := onPress route isFocused }

/-- The loop `state.routes.map((route, index) => ...)`, from position `index` on. -/
def renderRoutes (state : NavigationState) (descriptors : String → Option Descriptor) :
    ℕ → List Route → Except String (List TabIconProps)
  | _, [] => Except.ok []
  | index, route :: routes =>
    match renderRoute state descriptors route index with
    | Except.error e => Except.error e
    | Except.ok icon =>
      match renderRoutes state descriptors (index + 1) routes with
      | Except.error e => Except.error e
      | Except.ok icons => Except.ok (icon :: icons)

/-- What `CustomDriverTabBar` returns: the outer style (lines 98-117) and the icon row. -/
structure TabBarView where
  bottom : ℚ
  marginLeft : ℤ
  width : ℕ
  height : ℚ
  borderRadius : ℕ
  elevation : Option ℕ
  icons : List TabIconProps

/-- The render of `CustomDriverTabBar` (lines 91-191). -/
def CustomDriverTabBar (platformOS : String) (state : NavigationState)
    (descriptors : String → Option Descriptor) (insets : EdgeInsets) :
    Except String TabBarView :=
  match renderRoutes state descriptors 0 state.routes with
  | Except.error e => Except.error e
  | Except.ok icons =>
    Except.ok
      { bottom := bottomOffset + bottomSafe platformOS insets
        marginLeft := -120
        width := 240
        height := baseHeight platformOS
        borderRadius := 24
        elevation := if platformOS = "android" then some 6 else none
        icons := icons }

/-- The icons the bar shows, each rendered by `DriverTabIcon`. -/
def renderedIcons (bar : TabBarView) : List TabIconView :=
  bar.icons.map (fun props => DriverTabIcon props.iconName props.isFocused props.onPress)

/-! ## DriverTabNavigator (lines 200-235) -/

/-- The screen components imported at lines 9-13. -/
inductive ScreenComponent where
  | DriverHomeScreen
  | DriverEarningsScreen
  | DriverRideHistoryScreen
  | DriverRatingsScreen
  | DriverProfileScreen
deriving DecidableEq, Repr

/-- Lines 194-198: the wrapper renders the component it was given, with the same props. -/
def withDriverTabBarPadding (component : ScreenComponent) : ScreenComponent :=
  component

/-- A `<Tab.Screen>` element. -/
structure TabScreen where
  name : String
  component : ScreenComponent
  tabBarLabel : String
deriving DecidableEq, Repr

/-- The children of `<Tab.Navigator>` (lines 213-232), in source order. -/
def screens : List TabScreen :=
  [ { name := "DriverHome"
      component := withDriverTabBarPadding ScreenComponent.DriverHomeScreen
      tabBarLabel := "Trang chủ" },
    { name := "Earnings"
      component := withDriverTabBarPadding ScreenComponent.DriverEarningsScreen
      tabBarLabel := "Thu nhập" },
    { name := "DriverHistory"
      component := withDriverTabBarPadding ScreenComponent.DriverRideHistoryScreen
      tabBarLabel := "Lịch sử" },
    { name := "DriverProfile"
      component := withDriverTabBarPadding ScreenComponent.DriverProfileScreen
      tabBarLabel := "Hồ sơ" } ]

/-! ## Lemmas -/

theorem iconMapRead_iconNameFor (routeName : String) :
    ∃ config, iconMapRead (iconNameFor routeName) = PropertyRead.own config := by
  unfold iconNameFor
  split_ifs
  · exact ⟨⟨some "account-balance-wallet", some "account-balance-wallet"⟩, by decide⟩
  · exact ⟨⟨some "history", some "history"⟩, by decide⟩
  · exact ⟨⟨some "person", some "person-outline"⟩, by decide⟩
  · exact ⟨⟨some "two-wheeler", some "two-wheeler"⟩, by decide⟩

theorem iconNameFor_cases (routeName : String) :
    iconNameFor routeName = "two-wheeler" ∨ iconNameFor routeName = "account-balance-wallet" ∨
      iconNameFor routeName = "history" ∨ iconNameFor routeName = "person" := by
  unfold iconNameFor
  split_ifs <;> simp

/-- JavaScript `includes` holds exactly when `search` is a contiguous part of `s`. -/
theorem includes_iff_contiguous (s search : String) :
    includes s search = true ↔ search.data <:+: s.data := by
  unfold includes
  rw [List.any_eq_true, List.infix_iff_prefix_suffix]
  constructor
  · rintro ⟨t, ht, hp⟩
    exact ⟨t, List.isPrefixOf_iff_prefix.mp hp, (List.mem_tails t s.data).mp ht⟩
  · rintro ⟨t, hp, ht⟩
    exact ⟨t, (List.mem_tails t s.data).mpr ht, List.isPrefixOf_iff_prefix.mpr hp⟩

/-- A name that is none of the four keys is not an own property of `iconMap`. -/
theorem iconMap_lookup_none (iconName : String)
    (h : iconName ∉ ["two-wheeler", "account-balance-wallet", "history", "person"]) :
    iconMap.lookup iconName = none := by
  simp only [List.mem_cons, List.mem_singleton, not_or, List.not_mem_nil, or_false] at h
  obtain ⟨h1, h2, h3, h4⟩ := h
  have e1 : (iconName == "two-wheeler") = false := beq_false_of_ne h1
  have e2 : (iconName == "account-balance-wallet") = false := beq_false_of_ne h2
  have e3 : (iconName == "history") = false := beq_false_of_ne h3
  have e4 : (iconName == "person") = false := beq_false_of_ne h4
  simp only [iconMap, List.lookup, e1, e2, e3, e4]

/-- Outside the table and outside the inherited names, the glyph follows the `-outline`
convention. -/
theorem finalIconName_fallback (iconName : String) (isFocused : Bool)
    (hOwn : iconMap.lookup iconName = none) (hProto : iconName ∉ objectPrototypeNames) :
    finalIconName iconName isFocused =
      some (if isFocused then iconName
            else if includes iconName "-outline" then iconName else iconName ++ "-outline") := by
  have hread : iconMapRead iconName = PropertyRead.undefined := by
    simp only [iconMapRead, hOwn, if_neg hProto]
  cases isFocused <;> simp [finalIconName, iconConfig, hread]

/-- An inherited name short-circuits the `||`, and no glyph name results. -/
theorem finalIconName_inherited (iconName : String) (isFocused : Bool)
    (hOwn : iconMap.lookup iconName = none) (hProto : iconName ∈ objectPrototypeNames) :
    finalIconName iconName isFocused = none := by
  have hread : iconMapRead iconName = PropertyRead.inherited := by
    simp only [iconMapRead, hOwn, if_pos hProto]
  cases isFocused <;> simp [finalIconName, iconConfig, hread]

theorem renderRoute_ok (state : NavigationState) (descriptors : String → Option Descriptor)
    (route : Route) (index : ℕ) (h : (descriptors route.key).isSome = true) :
    renderRoute state descriptors route index =
      Except.ok
        { key := route.key
          iconName := iconNameFor route.name
          isFocused := isFocusedAt state index
          onPress := onPress route (isFocusedAt state index) } := by
  unfold renderRoute
  cases hd : descriptors route.key with
  | none => simp [hd] at h
  | some d => rfl

theorem renderRoute_error (state : NavigationState) (descriptors : String → Option Descriptor)
    (route : Route) (index : ℕ) (h : descriptors route.key = none) :
    ∃ e, renderRoute state descriptors route index = Except.error e := by
  unfold renderRoute
  rw [h]
  exact ⟨_, rfl⟩

/-- With a descriptor for every route the loop returns, and its `i`-th element is built from
the `i`-th route at position `start + i`. -/
theorem renderRoutes_ok (state : NavigationState) (descriptors : String → Option Descriptor) :
    ∀ (routes : List Route) (start : ℕ),
      (∀ route ∈ routes, (descriptors route.key).isSome = true) →
      ∃ icons, renderRoutes state descriptors start routes = Except.ok icons ∧
        icons.length = routes.length ∧
        ∀ (i : ℕ) (route : Route), routes[i]? = some route →
          ∃ props, icons[i]? = some props ∧ props.key = route.key ∧
            props.iconName = iconNameFor route.name ∧
            props.isFocused = isFocusedAt state (start + i) ∧
            props.onPress = onPress route (isFocusedAt state (start + i)) := by
  intro routes
  induction routes with
  | nil =>
    intro start _
    exact ⟨[], rfl, rfl, by intro i route h; simp at h⟩
  | cons r rs ih =>
    intro start h
    have hr : (descriptors r.key).isSome = true := h r (List.mem_cons_self _ _)
    obtain ⟨icons, hicons, hlen, hget⟩ :=
      ih (start + 1) (fun route hmem => h route (List.mem_cons_of_mem _ hmem))
    refine ⟨{ key := r.key
              iconName := iconNameFor r.name
              isFocused := isFocusedAt state start
              onPress := onPress r (isFocusedAt state start) } :: icons, ?_, ?_, ?_⟩
    · simp only [renderRoutes, renderRoute_ok state descriptors r start hr, hicons]
    · simp [hlen]
    · intro i route hi
      cases i with
      | zero =>
        simp only [List.getElem?_cons_zero, Option.some.injEq] at hi
        subst hi
        exact ⟨_, List.getElem?_cons_zero, rfl, rfl, rfl, rfl⟩
      | succ j =>
        simp only [List.getElem?_cons_succ] at hi
        obtain ⟨props, hp, hk, hn, hf, ho⟩ := hget j route hi
        have hidx : start + (j + 1) = start + 1 + j := by omega
        exact ⟨props, by simpa using hp, hk, hn, by rw [hidx]; exact hf, by rw [hidx]; exact ho⟩

/-- The number of focused icons the loop produces. -/
theorem renderRoutes_countP (state : NavigationState) (descriptors : String → Option Descriptor) :
    ∀ (routes : List Route) (start : ℕ) (icons : List TabIconProps),
      renderRoutes state descriptors start routes = Except.ok icons →
      icons.countP (fun props => props.isFocused) =
        if (start : ℤ) ≤ state.index ∧ state.index < (start : ℤ) + (routes.length : ℤ)
        then 1 else 0 := by
  intro routes
  induction routes with
  | nil =>
    intro start icons h
    simp only [renderRoutes, Except.ok.injEq] at h
    subst h
    have : ¬ ((start : ℤ) ≤ state.index ∧ state.index < (start : ℤ) + (([] : List Route).length : ℤ)) := by
      simp only [List.length_nil]; omega
    rw [if_neg this]
    rfl
  | cons r rs ih =>
    intro start icons h
    unfold renderRoutes at h
    cases hr : renderRoute state descriptors r start with
    | error e => simp [hr] at h
    | ok icon =>
      cases hrs : renderRoutes state descriptors (start + 1) rs with
      | error e => simp [hr, hrs] at h
      | ok rest =>
        simp only [hr, hrs, Except.ok.injEq] at h
        subst h
        have hrest := ih (start + 1) rest hrs
        have hfocus : icon.isFocused = isFocusedAt state start := by
          unfold renderRoute at hr
          cases hd : descriptors r.key with
          | none => simp [hd] at hr
          | some d =>
            simp only [hd, Except.ok.injEq] at hr
            subst hr
            rfl
        rw [List.countP_cons, hrest, hfocus]
        simp only [isFocusedAt, decide_eq_true_eq, List.length_cons]
        push_cast
        split_ifs <;> omega

/-- What the effect does at render `i`: it starts the spring unless the render before had the
same `isFocused`. -/
theorem effectRuns_getElem? :
    ∀ (renders : List Bool) (previous : Option Bool) (i : ℕ) (isFocused : Bool),
      renders[i]? = some isFocused →
      (effectRuns previous renders)[i]? =
        some (if (if i = 0 then previous else renders[i - 1]?) = some isFocused then none
              else some (springEffect isFocused)) := by
  intro renders
  induction renders with
  | nil =>
    intro previous i isFocused h
    simp at h
  | cons f fs ih =>
    intro previous i isFocused h
    cases i with
    | zero =>
      simp only [List.getElem?_cons_zero, Option.some.injEq] at h
      subst h
      simp [effectRuns]
    | succ j =>
      simp only [List.getElem?_cons_succ] at h
      have hj := ih (some f) j isFocused h
      simp only [effectRuns, List.getElem?_cons_succ, hj]
      cases j with
      | zero => simp
      | succ k => simp

/-- The bar that is returned once the loop over the routes has returned. -/
theorem CustomDriverTabBar_ok (platformOS : String) (state : NavigationState)
    (descriptors : String → Option Descriptor) (insets : EdgeInsets) (icons : List TabIconProps)
    (h : renderRoutes state descriptors 0 state.routes = Except.ok icons) :
    CustomDriverTabBar platformOS state descriptors insets =
      Except.ok
        { bottom := bottomOffset + bottomSafe platformOS insets
          marginLeft := -120
          width := 240
          height := baseHeight platformOS
          borderRadius := 24
          elevation := if platformOS = "android" then some 6 else none
          icons := icons } := by
  simp only [CustomDriverTabBar, h]

/-- The handler the tab bar builds for a route. -/
theorem renderRoute_onPress (state : NavigationState) (route : Route) (index : ℕ)
    (descriptors : String → Option Descriptor) (props : TabIconProps)
    (h : renderRoute state descriptors route index = Except.ok props) :
    props.onPress = onPress route (isFocusedAt state index) := by
  unfold renderRoute at h
  cases hd : descriptors route.key with
  | none => simp [hd] at h
  | some d =>
    simp only [hd, Except.ok.injEq] at h
    subst h
    rfl

/-! ## The press handler -/

/-- C1: one press of a route's tab calls `navigate` exactly once, with the route's name, when
the route is not the focused one and the emitted event has `defaultPrevented = false`; it
calls `navigate` zero times when the route is the focused one, and zero times when
`defaultPrevented` is true.  This holds for every handle, world, state, route and position,
and the handler in question is the one the tab bar builds for the route at that position. -/
theorem onPress_navigate_calls {σ : Type} (navigation : Navigation σ) (state : NavigationState)
    (route : Route) (index : ℕ) (w : σ) :
    (state.index ≠ (index : ℤ) →
      (navigation.emit ⟨"tabPress", route.key, true⟩ w).1.defaultPrevented = false →
      navigateCalls (Handler.run navigation (onPress route (isFocusedAt state index)) w).1
        = [route.name]) ∧
    (state.index = (index : ℤ) →
      navigateCalls (Handler.run navigation (onPress route (isFocusedAt state index)) w).1
        = []) ∧
    ((navigation.emit ⟨"tabPress", route.key, true⟩ w).1.defaultPrevented = true →
      navigateCalls (Handler.run navigation (onPress route (isFocusedAt state index)) w).1
        = []) ∧
    (∀ (descriptors : String → Option Descriptor) (props : TabIconProps),
      renderRoute state descriptors route index = Except.ok props →
      props.onPress = onPress route (isFocusedAt state index)) := by
  refine ⟨?_, ?_, ?_, renderRoute_onPress state route index⟩
  · intro hne hprev
    have hf : isFocusedAt state index = false := by simp [isFocusedAt, hne]
    simp [onPress, Handler.run, navigateCalls, hf, hprev]
  · intro heq
    have hf : isFocusedAt state index = true := by simp [isFocusedAt, heq]
    simp [onPress, Handler.run, navigateCalls, hf]
  · intro hprev
    simp [onPress, Handler.run, navigateCalls, hprev]

/-- C1, at a concrete press: the second tab while the first is focused, nothing prevented. -/
theorem onPress_navigate_calls_witness :
    navigateCalls
      (Handler.run (⟨fun _ w => (⟨false⟩, w), fun _ w => w + 1⟩ : Navigation ℕ)
        (onPress ⟨"Earnings-k2", "Earnings"⟩
          (isFocusedAt ⟨0, [⟨"DriverHome-k1", "DriverHome"⟩, ⟨"Earnings-k2", "Earnings"⟩]⟩ 1))
        0).1 = ["Earnings"] :=
  (onPress_navigate_calls (⟨fun _ w => (⟨false⟩, w), fun _ w => w + 1⟩ : Navigation ℕ)
    ⟨0, [⟨"DriverHome-k1", "DriverHome"⟩, ⟨"Earnings-k2", "Earnings"⟩]⟩
    ⟨"Earnings-k2", "Earnings"⟩ 1 0).1 (by decide) rfl

/-- C7: one press of a route's tab calls `emit` exactly once, with type `tabPress`, the route's
key as target and `canPreventDefault` true; the call is made whether or not the route is
focused, and it is the first call: whatever follows it is a `navigate` of the route's name. -/
theorem onPress_emit_calls {σ : Type} (navigation : Navigation σ) (state : NavigationState)
    (route : Route) (index : ℕ) (w : σ) :
    emitCalls (Handler.run navigation (onPress route (isFocusedAt state index)) w).1
        = [⟨"tabPress", route.key, true⟩] ∧
    (∃ rest, (Handler.run navigation (onPress route (isFocusedAt state index)) w).1
        = Call.emit ⟨"tabPress", route.key, true⟩ :: rest ∧
      ∀ call ∈ rest, call = Call.navigate route.name) := by
  by_cases hgo : (!isFocusedAt state index &&
      !(navigation.emit ⟨"tabPress", route.key, true⟩ w).1.defaultPrevented) = true
  · refine ⟨by simp [onPress, Handler.run, emitCalls, hgo], [Call.navigate route.name], ?_, ?_⟩
    · simp [onPress, Handler.run, hgo]
    · intro call hcall
      simpa using hcall
  · refine ⟨by simp [onPress, Handler.run, emitCalls, hgo], [], ?_, ?_⟩
    · simp [onPress, Handler.run, hgo]
    · intro call hcall
      simp at hcall

/-! ## The icon of a route -/

/-- C2: the icon name chosen for a route name is `two-wheeler` for `DriverHome`,
`account-balance-wallet` for `Earnings`, `history` for `DriverHistory`, `person` for
`DriverProfile`, and `two-wheeler` for every other route name; the icon name the tab bar passes
on is this function of the route name, whatever the state, descriptors, key and position. -/
theorem iconNameFor_spec (routeName : String) :
    iconNameFor "DriverHome" = "two-wheeler" ∧
    iconNameFor "Earnings" = "account-balance-wallet" ∧
    iconNameFor "DriverHistory" = "history" ∧
    iconNameFor "DriverProfile" = "person" ∧
    (routeName ≠ "DriverHome" → routeName ≠ "Earnings" → routeName ≠ "DriverHistory" →
      routeName ≠ "DriverProfile" → iconNameFor routeName = "two-wheeler") ∧
    (∀ (state : NavigationState) (descriptors : String → Option Descriptor) (key : String)
        (index : ℕ) (props : TabIconProps),
      renderRoute state descriptors ⟨key, routeName⟩ index = Except.ok props →
      props.iconName = iconNameFor routeName) := by
  refine ⟨by decide, by decide, by decide, by decide, ?_, ?_⟩
  · intro _ h2 h3 h4
    simp [iconNameFor, h2, h3, h4]
  · intro state descriptors key index props h
    unfold renderRoute at h
    cases hd : descriptors key with
    | none => simp [hd] at h
    | some d =>
      simp only [hd, Except.ok.injEq] at h
      subst h
      rfl

/-- C2, at an unknown route name and at a rendered `Earnings` tab. -/
theorem iconNameFor_spec_witness :
    iconNameFor "DriverRatings" = "two-wheeler" ∧
    (∀ props : TabIconProps,
      renderRoute ⟨0, [⟨"k", "Earnings"⟩]⟩ (fun _ => some ⟨⟨none⟩⟩) ⟨"k", "Earnings"⟩ 0
        = Except.ok props → props.iconName = "account-balance-wallet") :=
  ⟨(iconNameFor_spec "DriverRatings").2.2.2.2.1 (by decide) (by decide) (by decide) (by decide),
   fun props h =>
    (iconNameFor_spec "Earnings").2.2.2.2.2 ⟨0, [⟨"k", "Earnings"⟩]⟩ (fun _ => some ⟨⟨none⟩⟩)
      "k" 0 props h⟩

/-- C9: for every route name and every focus flag, the icon name the tab bar chooses is one of
the four keys of `iconMap`, the read `iconMap[iconName]` finds an own entry (so the `-outline`
fallback is not reached), and the glyph `DriverTabIcon` renders for it is one of `two-wheeler`,
`account-balance-wallet`, `history`, `person`, `person-outline`. -/
theorem tabBar_iconName_in_iconMap (routeName : String) (isFocused : Bool) :
    iconNameFor routeName ∈ iconMap.map Prod.fst ∧
    (∃ config, iconMapRead (iconNameFor routeName) = PropertyRead.own config) ∧
    (∀ onPress : Handler, (DriverTabIcon (iconNameFor routeName) isFocused onPress).icon.name ∈
      [some "two-wheeler", some "account-balance-wallet", some "history", some "person",
       some "person-outline"]) := by
  refine ⟨?_, iconMapRead_iconNameFor routeName, ?_⟩
  · rcases iconNameFor_cases routeName with h | h | h | h <;> rw [h] <;> decide
  · intro onPress
    show finalIconName (iconNameFor routeName) isFocused ∈ _
    rcases iconNameFor_cases routeName with h | h | h | h <;> rw [h] <;>
      cases isFocused <;> decide

/-! ## DriverTabIcon -/

/-- C4: for every icon name the icon is rendered with opacity 1 when `isFocused` is true and
0.6 when it is false; in particular the unfocused `person` icon, whose glyph is the distinct
`person-outline`, has opacity 0.6 as well. -/
theorem DriverTabIcon_opacity (iconName : String) (onPress : Handler) :
    (DriverTabIcon iconName true onPress).opacity = 1 ∧
    (DriverTabIcon iconName false onPress).opacity = 0.6 ∧
    (DriverTabIcon "person" false onPress).icon.name = some "person-outline" ∧
    (DriverTabIcon "person" false onPress).opacity = 0.6 := by
  refine ⟨rfl, rfl, ?_, rfl⟩
  show finalIconName "person" false = some "person-outline"
  decide

/-- The four table keys resolve as the table says: the key itself, except the unfocused
`person`, which is `person-outline`. -/
theorem finalIconName_table :
    finalIconName "two-wheeler" true = some "two-wheeler" ∧
    finalIconName "two-wheeler" false = some "two-wheeler" ∧
    finalIconName "account-balance-wallet" true = some "account-balance-wallet" ∧
    finalIconName "account-balance-wallet" false = some "account-balance-wallet" ∧
    finalIconName "history" true = some "history" ∧
    finalIconName "history" false = some "history" ∧
    finalIconName "person" true = some "person" ∧
    finalIconName "person" false = some "person-outline" := by
  decide

/-- C6, as stated, fails at the icon name `constructor`: it is none of the four table keys and
does not contain `-outline`, yet the read `iconMap["constructor"]` finds the member inherited
from `Object.prototype`, the fallback object is not built, and the glyph name is `undefined`
for both focus flags instead of `constructor` and `constructor-outline`. -/
theorem finalIconName_constructor :
    "constructor" ∉ ["two-wheeler", "account-balance-wallet", "history", "person"] ∧
    iconMap.lookup "constructor" = none ∧
    includes "constructor" "-outline" = false ∧
    iconMapRead "constructor" = PropertyRead.inherited ∧
    finalIconName "constructor" true = none ∧
    finalIconName "constructor" false = none ∧
    finalIconName "constructor" true ≠ some "constructor" ∧
    finalIconName "constructor" false ≠ some "constructor-outline" := by
  decide

/-- C6, amended: for each of the four table keys the focused glyph is the key itself and the
unfocused glyph is the key itself, except `person`, whose unfocused glyph is `person-outline`;
for every icon name that is neither one of the four table keys nor a name inherited from
`Object.prototype`, the focused glyph is the name itself and the unfocused glyph is the name
with `-outline` appended, unless the name already contains `-outline`, in which case the
unfocused glyph is the name unchanged. -/
theorem finalIconName_spec (iconName : String)
    (hKey : iconName ∉ ["two-wheeler", "account-balance-wallet", "history", "person"])
    (hProto : iconName ∉ objectPrototypeNames) :
    (finalIconName "two-wheeler" true = some "two-wheeler" ∧
     finalIconName "two-wheeler" false = some "two-wheeler" ∧
     finalIconName "account-balance-wallet" true = some "account-balance-wallet" ∧
     finalIconName "account-balance-wallet" false = some "account-balance-wallet" ∧
     finalIconName "history" true = some "history" ∧
     finalIconName "history" false = some "history" ∧
     finalIconName "person" true = some "person" ∧
     finalIconName "person" false = some "person-outline") ∧
    finalIconName iconName true = some iconName ∧
    (¬ ("-outline".data <:+: iconName.data) →
      finalIconName iconName false = some (iconName ++ "-outline")) ∧
    ("-outline".data <:+: iconName.data → finalIconName iconName false = some iconName) := by
  have hOwn := iconMap_lookup_none iconName hKey
  refine ⟨finalIconName_table, ?_, ?_, ?_⟩
  · rw [finalIconName_fallback iconName true hOwn hProto]
    rfl
  · intro hno
    have hinc : includes iconName "-outline" = false := by
      rw [← Bool.not_eq_true, includes_iff_contiguous]
      exact hno
    rw [finalIconName_fallback iconName false hOwn hProto]
    simp [hinc]
  · intro hyes
    have hinc : includes iconName "-outline" = true := (includes_iff_contiguous _ _).mpr hyes
    rw [finalIconName_fallback iconName false hOwn hProto]
    simp [hinc]

/-- C6, amended, at the names `home` (no `-outline` inside) and `star-outline`. -/
theorem finalIconName_spec_witness :
    finalIconName "home" true = some "home" ∧
    finalIconName "home" false = some "home-outline" ∧
    finalIconName "star-outline" true = some "star-outline" ∧
    finalIconName "star-outline" false = some "star-outline" :=
  ⟨(finalIconName_spec "home" (by decide) (by decide)).2.1,
   (finalIconName_spec "home" (by decide) (by decide)).2.2.1
     (by rw [← includes_iff_contiguous]; decide),
   (finalIconName_spec "star-outline" (by decide) (by decide)).2.1,
   (finalIconName_spec "star-outline" (by decide) (by decide)).2.2.2
     (by rw [← includes_iff_contiguous]; decide)⟩

/-- C8: at the mount and at each render whose `isFocused` differs from the render before, the
effect starts a spring, and every spring it starts has target 1.2 when `isFocused` is true and
1 when it is false, with tension 300 and friction 10. -/
theorem spring_on_mount_and_focus_change (renders : List Bool) (i : ℕ) (isFocused : Bool)
    (h : renders[i]? = some isFocused) :
    (springEffect true).toValue = 1.2 ∧
    (springEffect false).toValue = 1 ∧
    (springEffect isFocused).tension = 300 ∧
    (springEffect isFocused).friction = 10 ∧
    ((i = 0 ∨ renders[i - 1]? = some (!isFocused)) →
      (effectRuns none renders)[i]? = some (some (springEffect isFocused))) ∧
    (∀ spring, (effectRuns none renders)[i]? = some (some spring) →
      spring = springEffect isFocused) := by
  have hrun := effectRuns_getElem? renders none i isFocused h
  refine ⟨rfl, rfl, rfl, rfl, ?_, ?_⟩
  · intro hchange
    rw [hrun]
    rcases hchange with h0 | hprev
    · subst h0
      simp
    · by_cases h0 : i = 0
      · subst h0
        simp
      · rw [if_neg h0, hprev]
        cases isFocused <;> simp
  · intro spring hs
    rw [hrun] at hs
    by_cases hsame : (if i = 0 then none else renders[i - 1]?) = some isFocused
    · rw [if_pos hsame] at hs
      cases hs
    · rw [if_neg hsame] at hs
      cases hs
      rfl

/-- C8, at the second render of an icon that was mounted unfocused and then gained focus. -/
theorem spring_on_mount_and_focus_change_witness :
    (effectRuns none [false, true])[0]? = some (some ⟨1, 300, 10, true⟩) ∧
    (effectRuns none [false, true])[1]? = some (some ⟨1.2, 300, 10, true⟩) :=
  ⟨(spring_on_mount_and_focus_change [false, true] 0 false rfl).2.2.2.2.1 (Or.inl rfl),
   (spring_on_mount_and_focus_change [false, true] 1 true rfl).2.2.2.2.1 (Or.inr rfl)⟩

/-! ## CustomDriverTabBar -/

/-- C3: the bottom of the bar is `16 + max(insets.bottom, m)` with `m = 12` on Android and
`m = 6` on every other platform: `16 + m` for `insets.bottom = 0` (28 on Android, 22 elsewhere)
and `16 + insets.bottom` for every `insets.bottom` greater than `m`; a rendered bar carries
this value as its `bottom`. -/
theorem tabBar_bottom (platformOS : String) (insets : EdgeInsets) :
    bottomOffset + bottomSafe platformOS insets
      = 16 + max insets.bottom (if platformOS = "android" then 12 else 6) ∧
    (insets.bottom = 0 →
      bottomOffset + bottomSafe platformOS insets
        = 16 + (if platformOS = "android" then 12 else 6)) ∧
    (insets.bottom = 0 → platformOS = "android" →
      bottomOffset + bottomSafe platformOS insets = 28) ∧
    (insets.bottom = 0 → platformOS ≠ "android" →
      bottomOffset + bottomSafe platformOS insets = 22) ∧
    ((if platformOS = "android" then (12 : ℚ) else 6) < insets.bottom →
      bottomOffset + bottomSafe platformOS insets = 16 + insets.bottom) ∧
    (∀ (state : NavigationState) (descriptors : String → Option Descriptor) (bar : TabBarView),
      CustomDriverTabBar platformOS state descriptors insets = Except.ok bar →
      bar.bottom = 16 + max insets.bottom (if platformOS = "android" then 12 else 6)) := by
  refine ⟨rfl, ?_, ?_, ?_, ?_, ?_⟩
  · intro h0
    simp only [bottomOffset, bottomSafe, h0]
    split_ifs <;> norm_num
  · intro h0 hos
    simp only [bottomOffset, bottomSafe, h0, hos]
    norm_num
  · intro h0 hos
    simp only [bottomOffset, bottomSafe, h0, if_neg hos]
    norm_num
  · intro hlt
    simp only [bottomOffset, bottomSafe]
    rw [max_eq_left (le_of_lt hlt)]
  · intro state descriptors bar h
    unfold CustomDriverTabBar at h
    cases hr : renderRoutes state descriptors 0 state.routes with
    | error e => simp [hr] at h
    | ok icons =>
      simp only [hr, Except.ok.injEq] at h
      subst h
      rfl

/-- C3, on Android and on iOS without an inset, and on iOS with the inset 34. -/
theorem tabBar_bottom_witness :
    bottomOffset + bottomSafe "android" ⟨0, 0, 0, 0⟩ = 28 ∧
    bottomOffset + bottomSafe "ios" ⟨0, 0, 0, 0⟩ = 22 ∧
    bottomOffset + bottomSafe "ios" ⟨47, 34, 0, 0⟩ = 16 + 34 :=
  ⟨(tabBar_bottom "android" ⟨0, 0, 0, 0⟩).2.2.1 rfl rfl,
   (tabBar_bottom "ios" ⟨0, 0, 0, 0⟩).2.2.2.1 rfl (by decide),
   (tabBar_bottom "ios" ⟨47, 34, 0, 0⟩).2.2.2.2.1 (by rw [if_neg (by decide)]; norm_num)⟩

/-- C10: for every navigation state, passed with the `descriptors` of the navigator, which
hold an entry for each route key of the state, the bar renders one `DriverTabIcon` per element
of `state.routes`, in the same order (the icon at position `i` carries the key and the icon name of route `i`), the
icon at position `i` is focused if and only if `i = state.index`; hence exactly one icon is
focused when `0 <= state.index < length of state.routes`, and none otherwise. -/
theorem CustomDriverTabBar_icons (platformOS : String) (state : NavigationState)
    (descriptors : String → Option Descriptor) (insets : EdgeInsets)
    (h : ∀ route ∈ state.routes, (descriptors route.key).isSome = true) :
    ∃ bar, CustomDriverTabBar platformOS state descriptors insets = Except.ok bar ∧
      bar.icons.length = state.routes.length ∧
      (renderedIcons bar).length = state.routes.length ∧
      (∀ (i : ℕ) (route : Route), state.routes[i]? = some route →
        ∃ props, bar.icons[i]? = some props ∧ props.key = route.key ∧
          props.iconName = iconNameFor route.name ∧
          (props.isFocused = true ↔ (i : ℤ) = state.index) ∧
          (renderedIcons bar)[i]? =
            some (DriverTabIcon (iconNameFor route.name) (isFocusedAt state i)
              (onPress route (isFocusedAt state i)))) ∧
      ((0 ≤ state.index ∧ state.index < (state.routes.length : ℤ)) →
        bar.icons.countP (fun props => props.isFocused) = 1) ∧
      (¬ (0 ≤ state.index ∧ state.index < (state.routes.length : ℤ)) →
        bar.icons.countP (fun props => props.isFocused) = 0) := by
  obtain ⟨icons, hicons, hlen, hget⟩ := renderRoutes_ok state descriptors state.routes 0 h
  have hcount := renderRoutes_countP state descriptors state.routes 0 icons hicons
  simp only [Nat.cast_zero, zero_add] at hcount
  refine ⟨_, CustomDriverTabBar_ok platformOS state descriptors insets icons hicons, hlen,
    by simp [renderedIcons, hlen], ?_, ?_, ?_⟩
  · intro i route hi
    obtain ⟨props, hp, hk, hn, hf, ho⟩ := hget i route hi
    rw [zero_add] at hf ho
    refine ⟨props, hp, hk, hn, ?_, ?_⟩
    · rw [hf]
      simp only [isFocusedAt, decide_eq_true_eq]
      exact eq_comm
    · simp [renderedIcons, hp, hn, hf, ho]
  · intro hin
    show icons.countP (fun props => props.isFocused) = 1
    rw [hcount, if_pos hin]
  · intro hout
    show icons.countP (fun props => props.isFocused) = 0
    rw [hcount, if_neg hout]

/-- C10, at the four driver routes with the second one focused. -/
theorem CustomDriverTabBar_icons_witness :
    ∃ bar, CustomDriverTabBar "android"
        ⟨1, [⟨"k1", "DriverHome"⟩, ⟨"k2", "Earnings"⟩, ⟨"k3", "DriverHistory"⟩,
             ⟨"k4", "DriverProfile"⟩]⟩
        (fun _ => some ⟨⟨none⟩⟩) ⟨0, 0, 0, 0⟩ = Except.ok bar ∧
      bar.icons.length = 4 ∧
      bar.icons.countP (fun props => props.isFocused) = 1 := by
  obtain ⟨bar, hbar, hlen, _, _, hone, _⟩ :=
    CustomDriverTabBar_icons "android"
      ⟨1, [⟨"k1", "DriverHome"⟩, ⟨"k2", "Earnings"⟩, ⟨"k3", "DriverHistory"⟩,
           ⟨"k4", "DriverProfile"⟩]⟩
      (fun _ => some ⟨⟨none⟩⟩) ⟨0, 0, 0, 0⟩ (fun _ _ => rfl)
  exact ⟨bar, hbar, hlen, hone (by decide)⟩

/-! ## DriverTabNavigator -/

/-- C5: the navigator registers exactly four routes, in this order and with these labels:
`DriverHome` with `Trang chủ`, `Earnings` with `Thu nhập`, `DriverHistory` with `Lịch sử`,
`DriverProfile` with `Hồ sơ`; none of them shows the imported `DriverRatingsScreen`. -/
theorem screens_spec :
    screens.length = 4 ∧
    screens.map (fun screen => (screen.name, screen.tabBarLabel)) =
      [("DriverHome", "Trang chủ"), ("Earnings", "Thu nhập"), ("DriverHistory", "Lịch sử"),
       ("DriverProfile", "Hồ sơ")] ∧
    screens.map (fun screen => screen.component) =
      [ScreenComponent.DriverHomeScreen, ScreenComponent.DriverEarningsScreen,
       ScreenComponent.DriverRideHistoryScreen, ScreenComponent.DriverProfileScreen] ∧
    ScreenComponent.DriverRatingsScreen ∉ screens.map (fun screen => screen.component) := by
  decide

end DriverTabNavigator
